import Mathlib

/-!
A shallow embedding of the data-processing core of `chess_dashboard.py`
(a streamlit/pandas dashboard over a table of chess games), together with
theorems checking the specification's claims about it.

Conventions of the embedding:
* a pandas DataFrame of games is a `List GameRecord` (row order = frame order);
* a column that can hold NaN is an `Option` field; pandas NaN is `none`;
* `Series.isin`, boolean-mask filtering, `value_counts`, `.mean()`, `.sum()`,
  `sort_values(ascending=False)` and `head(n)` are translated one step at a
  time below, each with a comment pointing at the source line it embeds;
* exact rational arithmetic (`ℚ`) stands for Python float arithmetic; the one
  place where a float NaN is produced and then consumed (`mean()` of an empty
  column, and the NaN win rates removed by `dropna()`) is modelled explicitly
  with `Option` / a filter, as noted at the definition.
-/

namespace ChessDashboard

/-- One row of the games table: the domain columns kept by `load_data`
(`game_id` is the index column; `moves` and `Unnamed: 15` are dropped).
Columns that can hold NaN in the CSV are `Option` fields. -/
structure GameRecord where
  game_id : Nat
  rated : Option Bool
  turns : Nat
  victory_status : Option String
  winner : Option String
  time_increment : Option String
  opening_shortname : Option String
  white_id : Option String
  black_id : Option String
deriving DecidableEq, Repr

/-- The five sidebar multiselects (source lines 22-26).  Each holds the list of
accepted values for one column.  The widgets build their option lists with
`dropna().unique()`, so none of these lists can contain a null value; the
types record that. -/
structure FilterCriteria where
  rated_options : List Bool
  victory_options : List String
  time_increments : List String
  openings : List String
  players : List String
deriving Repr

/-- `Series.isin(opts)` on one cell of an `Option` column: NaN is never a
member (the option lists come from `dropna()` and hold no NaN), a present
value is tested for membership. -/
def optIsin {α : Type} [DecidableEq α] (v : Option α) (opts : List α) : Bool :=
  match v with
  | none => false
  | some a => opts.contains a

/-- The conjunction of the four column masks of source lines 30-33:
`rated.isin(rated_options) & victory_status.isin(victory_options) &
time_increment.isin(time_increments) & opening_shortname.isin(openings)`.
Each mask is applied unconditionally, also when its accepted list is empty. -/
def attrMask (c : FilterCriteria) (r : GameRecord) : Bool :=
  optIsin r.rated c.rated_options &&
  optIsin r.victory_status c.victory_options &&
  optIsin r.time_increment c.time_increments &&
  optIsin r.opening_shortname c.openings

/-- The filter pipeline of source lines 29-37: first the four-column boolean
mask, then — only `if players:` (the list is nonempty) — the extra mask
`white_id.isin(players) | black_id.isin(players)`. -/
def filtered (chess : List GameRecord) (c : FilterCriteria) : List GameRecord :=
  let base := chess.filter (fun r => attrMask c r)
  if c.players.isEmpty then base
  else base.filter (fun r => optIsin r.white_id c.players || optIsin r.black_id c.players)

/-- The default (freshly rendered) sidebar state, source lines 22-26:
`rated_options = [True, False]`, and for the three string columns every
observed non-null value (`sorted(col.dropna().unique())`; sorting only
changes display order, not membership, so it is not modelled).  The player
multiselect has no default: empty. -/
def acceptAllCriteria (chess : List GameRecord) : FilterCriteria :=
  { rated_options := [true, false]
  , victory_options := (chess.filterMap GameRecord.victory_status).dedup
  , time_increments := (chess.filterMap GameRecord.time_increment).dedup
  , openings := (chess.filterMap GameRecord.opening_shortname).dedup
  , players := [] }

/-- Source line 48: `avg_turns = filtered["turns"].mean()`.  pandas `mean()`
of an empty column is NaN (`none`); otherwise the sum divided by the count. -/
def avg_turns (v : List GameRecord) : Option ℚ :=
  if v.length = 0 then none
  else some (((v.map GameRecord.turns).sum : ℚ) / (v.length : ℚ))

/-- `filtered["rated"].sum()` (source line 49): the number of `True` cells
(`False` counts 0, NaN is skipped by `sum`). -/
def ratedSum (v : List GameRecord) : Nat :=
  (v.filter (fun r => r.rated == some true)).length

/-- Source line 49:
`rated_pct = (filtered["rated"].sum() / num_games) * 100 if num_games > 0 else 0`. -/
def rated_pct (v : List GameRecord) : ℚ :=
  if 0 < v.length then ((ratedSum v : ℚ) / (v.length : ℚ)) * 100 else 0

/-- Descending order on a `Nat` key: `keyDescRel key a b` holds when `a`'s key
is at least `b`'s. -/
def keyDescRel {α : Type} (key : α → Nat) (a b : α) : Prop := key b ≤ key a

instance {α : Type} (key : α → Nat) : DecidableRel (keyDescRel key) :=
  fun a b => Nat.decLe (key b) (key a)

instance {α : Type} (key : α → Nat) : IsTotal α (keyDescRel key) :=
  ⟨fun a b => Nat.le_total (key b) (key a)⟩

instance {α : Type} (key : α → Nat) : IsTrans α (keyDescRel key) :=
  ⟨fun _ _ _ h1 h2 => le_trans h2 h1⟩

/-- Descending sort by a `Nat` key, the order produced by
`value_counts()` (count descending) and `sort_values(_, ascending=False)`.
Ties are left in a deterministic order (insertion sort is stable); the
source's tie order is unspecified and no claim depends on it. -/
def sortByKeyDesc {α : Type} (key : α → Nat) (l : List α) : List α :=
  l.insertionSort (keyDescRel key)

/-- `Series.value_counts()`: one `(value, count)` pair per distinct non-null
value, count descending.  NaN removal happens before this point (the caller
passes a list of present values). -/
def value_counts (l : List String) : List (String × Nat) :=
  sortByKeyDesc Prod.snd (l.dedup.map (fun s => (s, l.count s)))

/-- The `opening_shortname` cells of the white-win rows, source line 102:
`filtered[filtered["winner"] == "White"]["opening_shortname"]` (NaN cells
dropped as `value_counts` would). -/
def white_openings (v : List GameRecord) : List String :=
  (v.filter (fun r => r.winner == some "White")).filterMap GameRecord.opening_shortname

/-- The number of white-win rows with the given opening. -/
def whiteWinCount (v : List GameRecord) (o : String) : Nat :=
  (white_openings v).count o

/-- Source lines 102-103 (plot 7), with `head(10)` generalised to `head(n)`:
`filtered[filtered["winner"]=="White"]["opening_shortname"].value_counts().head(n)`. -/
def openings_top (v : List GameRecord) (n : Nat) : List (String × Nat) :=
  (value_counts (white_openings v)).take n

/-- Source line 110: `filtered[filtered["winner"]=="White"]["white_id"].value_counts()`
evaluated at one player: the number of rows this player won as White. -/
def white_wins (v : List GameRecord) (p : String) : Nat :=
  ((v.filter (fun r => r.winner == some "White")).filterMap GameRecord.white_id).count p

/-- Source line 111: the number of rows this player won as Black. -/
def black_wins (v : List GameRecord) (p : String) : Nat :=
  ((v.filter (fun r => r.winner == some "Black")).filterMap GameRecord.black_id).count p

/-- Source line 112: `total_wins = white_wins.add(black_wins, fill_value=0)`
evaluated at one player.  (In pandas a player missing from both series is
absent from `total_wins`, which is what makes their `winrate` NaN below.) -/
def total_wins (v : List GameRecord) (p : String) : Nat :=
  white_wins v p + black_wins v p

/-- Source line 113:
`total_games = filtered["white_id"].value_counts().add(filtered["black_id"].value_counts(), fill_value=0)`
evaluated at one player: appearances as White plus appearances as Black. -/
def total_games (v : List GameRecord) (p : String) : Nat :=
  (v.filterMap GameRecord.white_id).count p + (v.filterMap GameRecord.black_id).count p

/-- The index of `total_games`: every player id appearing (non-null) as
`white_id` or `black_id`. -/
def playersIndex (v : List GameRecord) : List String :=
  (v.filterMap GameRecord.white_id ++ v.filterMap GameRecord.black_id).dedup

/-- Source lines 114-116 (plot 8), with `head(10)` generalised to `head(n)`.
`winrate = (total_wins / total_games) * 100` is NaN exactly for the players
of the index that are absent from `total_wins` (zero wins); building
`pd.DataFrame({"Games": total_games, "WinRate": winrate}).dropna()` therefore
keeps exactly the players with at least one win — modelled by the filter
below — then `sort_values("Games", ascending=False).head(n)`.
Each entry is `(player, games, winRate)`. -/
def player_stats (v : List GameRecord) (n : Nat) : List (String × Nat × ℚ) :=
  let kept := (playersIndex v).filter (fun p => decide (total_wins v p ≠ 0))
  (sortByKeyDesc (fun e : String × Nat × ℚ => e.2.1)
    (kept.map (fun p => (p, total_games v p,
      ((total_wins v p : ℚ) / (total_games v p : ℚ)) * 100)))).take n

/-! ### Export / loader (source line 44 `filtered.to_csv()` and lines 11-15 `load_data`)

The CSV text is modelled one level up from characters: a table is a header
row of column names plus one row of cells per record, a cell being a tagged
value (pandas' dtype inference on re-read is abstracted into the tags; an
empty CSV cell, i.e. NaN, is `Cell.null`). -/

/-- One CSV cell after type inference. -/
inductive Cell where
  | str : String → Cell
  | nat : Nat → Cell
  | bool : Bool → Cell
  | null : Cell
deriving DecidableEq, Repr

/-- A parsed CSV document: header row plus data rows. -/
structure CSVTable where
  header : List String
  rows : List (List Cell)
deriving DecidableEq, Repr

/-- The column order of the domain table, index column `game_id` first (as
`to_csv` writes the index first). -/
def domainHeader : List String :=
  ["game_id", "rated", "turns", "victory_status", "winner",
   "time_increment", "opening_shortname", "white_id", "black_id"]

/-- An `Option Bool` cell as written by `to_csv` (NaN becomes an empty cell). -/
def cellOfOptBool : Option Bool → Cell
  | none => Cell.null
  | some b => Cell.bool b

/-- An `Option String` cell as written by `to_csv`. -/
def cellOfOptStr : Option String → Cell
  | none => Cell.null
  | some s => Cell.str s

/-- One record as one CSV row, columns in `domainHeader` order. -/
def recordToRow (r : GameRecord) : List Cell :=
  [Cell.nat r.game_id, cellOfOptBool r.rated, Cell.nat r.turns,
   cellOfOptStr r.victory_status, cellOfOptStr r.winner,
   cellOfOptStr r.time_increment, cellOfOptStr r.opening_shortname,
   cellOfOptStr r.white_id, cellOfOptStr r.black_id]

/-- Source line 44: `filtered.to_csv()` — a header line naming every column
(the `game_id` index included) plus one line per record, in view order. -/
def to_csv (v : List GameRecord) : CSVTable :=
  ⟨domainHeader, v.map recordToRow⟩

/-- The columns `load_data` drops (source line 13). -/
def droppedCols : List String := ["Unnamed: 15", "moves"]

/-- Drop the cells of the dropped columns from one row, by header position. -/
def keepCols (header : List String) (row : List Cell) : List Cell :=
  ((header.zip row).filter (fun p => !droppedCols.contains p.1)).map Prod.snd

/-- Parse an `Option Bool` column cell back; a cell of any other type is a
malformed row. -/
def parseOptBool : Cell → Option (Option Bool)
  | Cell.null => some none
  | Cell.bool b => some (some b)
  | _ => none

/-- Parse an `Option String` column cell back. -/
def parseOptStr : Cell → Option (Option String)
  | Cell.null => some none
  | Cell.str s => some (some s)
  | _ => none

/-- Parse one data row (already restricted to the domain columns) into a
record; `none` on a row of the wrong shape or with a wrongly-typed cell. -/
def parseRow (row : List Cell) : Option GameRecord :=
  match row with
  | [Cell.nat gid, c1, Cell.nat t, c3, c4, c5, c6, c7, c8] =>
    match parseOptBool c1, parseOptStr c3, parseOptStr c4, parseOptStr c5,
          parseOptStr c6, parseOptStr c7, parseOptStr c8 with
    | some rOpt, some vs, some w, some ti, some os, some wi, some bi =>
        some ⟨gid, rOpt, t, vs, w, ti, os, wi, bi⟩
    | _, _, _, _, _, _, _ => none
  | _ => none

/-- Parse every data row; `none` as soon as one row is malformed. -/
def parseRows : List (List Cell) → Option (List GameRecord)
  | [] => some []
  | row :: rest =>
    match parseRow row, parseRows rest with
    | some r, some rs => some (r :: rs)
    | _, _ => none

/-- Source lines 11-15: read the CSV, drop the `Unnamed: 15` and `moves`
columns when present (`errors='ignore'`), and take `game_id` as the index.
`none` models the load failing (missing domain column, malformed row);
nothing about the rows other than their cell types can make it fail — in
particular `set_index("game_id")` accepts duplicate `game_id` values and
keeps every row. -/
def load_data (t : CSVTable) : Option (List GameRecord) :=
  let header := t.header.filter (fun c => !droppedCols.contains c)
  let rows := t.rows.map (keepCols t.header)
  if header = domainHeader then parseRows rows else none

/-! ### Concrete data used by counterexamples and witnesses -/

/-- A single well-formed game: White ("a") beats Black ("b"). -/
def g1 : GameRecord :=
  ⟨1, some true, 40, some "mate", some "White", some "10+0", some "Italian",
   some "a", some "b"⟩

/-- The spec's three-record example: two White wins with the Italian, one
Black win with the Sicilian. -/
def ex3 : List GameRecord :=
  [⟨1, some true, 40, some "mate", some "White", some "10+0", some "Italian",
    some "a", some "b"⟩,
   ⟨2, some true, 30, some "resign", some "White", some "10+0", some "Italian",
    some "c", some "d"⟩,
   ⟨3, some false, 20, some "resign", some "Black", some "5+5", some "Sicilian",
    some "a", some "c"⟩]

/-- A record whose `rated` cell is null and the other columns present. -/
def rnull : GameRecord :=
  ⟨9, none, 25, some "mate", some "White", some "10+0", some "Italian",
   some "x", some "y"⟩

/-- Criteria accepting `g1`'s values on three columns but with an EMPTY
accepted set for `rated`, and no player constraint. -/
def cEmptyRated : FilterCriteria :=
  { rated_options := []
  , victory_options := ["mate"]
  , time_increments := ["10+0"]
  , openings := ["Italian"]
  , players := [] }

/-- Criteria matching `g1` on every column, with player "b" selected. -/
def cFull : FilterCriteria :=
  { rated_options := [true]
  , victory_options := ["mate"]
  , time_increments := ["10+0"]
  , openings := ["Italian"]
  , players := ["b"] }

/-- A CSV table with two rows sharing `game_id = 7`. -/
def dupTable : CSVTable :=
  ⟨domainHeader,
   [[Cell.nat 7, Cell.bool true, Cell.nat 12, Cell.str "mate", Cell.str "White",
     Cell.str "10+0", Cell.str "Italian", Cell.str "a", Cell.str "b"],
    [Cell.nat 7, Cell.bool false, Cell.nat 33, Cell.str "resign", Cell.str "Black",
     Cell.str "5+5", Cell.str "Sicilian", Cell.str "c", Cell.str "d"]]⟩

/-! ### Helper lemmas -/

lemma optIsin_iff {α : Type} [DecidableEq α] (v : Option α) (opts : List α) :
    optIsin v opts = true ↔ ∃ a, v = some a ∧ a ∈ opts := by
  cases v <;> simp [optIsin]

/-- Membership in the filter output, read off the two stages of `filtered`. -/
lemma mem_filtered_iff {chess : List GameRecord} {c : FilterCriteria} {r : GameRecord} :
    r ∈ filtered chess c ↔
      r ∈ chess ∧ attrMask c r = true ∧
        (c.players ≠ [] →
          (optIsin r.white_id c.players || optIsin r.black_id c.players) = true) := by
  unfold filtered
  rcases hp : c.players with _ | ⟨p, ps⟩
  · simp [hp, List.mem_filter]
  · simp only [hp, List.isEmpty_cons, if_false, Bool.false_eq_true, List.mem_filter]
    constructor
    · rintro ⟨⟨h1, h2⟩, h3⟩
      exact ⟨h1, h2, fun _ => h3⟩
    · rintro ⟨h1, h2, h3⟩
      exact ⟨⟨h1, h2⟩, h3 (by simp)⟩

/-- The four-column mask spelt out as membership constraints. -/
lemma attrMask_iff {c : FilterCriteria} {r : GameRecord} :
    attrMask c r = true ↔
      (∃ b, r.rated = some b ∧ b ∈ c.rated_options) ∧
      (∃ s, r.victory_status = some s ∧ s ∈ c.victory_options) ∧
      (∃ s, r.time_increment = some s ∧ s ∈ c.time_increments) ∧
      (∃ s, r.opening_shortname = some s ∧ s ∈ c.openings) := by
  simp [attrMask, Bool.and_eq_true, optIsin_iff, and_assoc]

/-! ### Claim theorems: the filter engine -/

/-- C3 (amended): a record is retained by `filtered` iff its value for EACH of
the four filterable columns is a present (non-null) member of the
corresponding accepted list — each of the four membership constraints is
applied even when its accepted list is empty, in which case it rejects every
record — and, when the accepted player list is nonempty, additionally its
`white_id` or its `black_id` is a member of it; an empty player list imposes
no player constraint. -/
theorem claim3_filter_retention_iff (chess : List GameRecord) (c : FilterCriteria)
    (r : GameRecord) :
    r ∈ filtered chess c ↔
      r ∈ chess ∧
      (∃ b, r.rated = some b ∧ b ∈ c.rated_options) ∧
      (∃ s, r.victory_status = some s ∧ s ∈ c.victory_options) ∧
      (∃ s, r.time_increment = some s ∧ s ∈ c.time_increments) ∧
      (∃ s, r.opening_shortname = some s ∧ s ∈ c.openings) ∧
      (c.players ≠ [] →
        (∃ p, r.white_id = some p ∧ p ∈ c.players) ∨
        (∃ p, r.black_id = some p ∧ p ∈ c.players)) := by
  rw [mem_filtered_iff, attrMask_iff]
  simp only [Bool.or_eq_true, optIsin_iff, and_assoc]

/-- C3, the claim as frozen, is false: `g1` satisfies every NON-EMPTY
single-attribute constraint of `cEmptyRated` and there is no player
constraint, yet it is not retained, because the code also applies the rated
constraint whose accepted list is empty. -/
theorem claim3_counterexample :
    (cEmptyRated.players = [] ∧ cEmptyRated.rated_options = [] ∧
      (∃ s, g1.victory_status = some s ∧ s ∈ cEmptyRated.victory_options) ∧
      (∃ s, g1.time_increment = some s ∧ s ∈ cEmptyRated.time_increments) ∧
      (∃ s, g1.opening_shortname = some s ∧ s ∈ cEmptyRated.openings)) ∧
    g1 ∉ filtered [g1] cEmptyRated := by
  refine ⟨⟨rfl, rfl, ⟨"mate", rfl, by decide⟩, ⟨"10+0", rfl, by decide⟩,
    ⟨"Italian", rfl, by decide⟩⟩, ?_⟩
  decide

/-- Witness for C3's theorem at a concrete record and criteria. -/
theorem claim3_witness : g1 ∈ filtered [g1] cFull :=
  (claim3_filter_retention_iff [g1] cFull g1).mpr
    ⟨by simp, ⟨true, rfl, by decide⟩, ⟨"mate", rfl, by decide⟩,
     ⟨"10+0", rfl, by decide⟩, ⟨"Italian", rfl, by decide⟩,
     fun _ => Or.inr ⟨"b", rfl, by decide⟩⟩

/-- C4 (amended): on a record set in which every record has a present
(non-null) value in the four filterable columns, filtering with the default
sidebar state (every observed value accepted, no player selected) returns
the input unchanged, in the same order. -/
theorem claim4_accept_all_identity (chess : List GameRecord)
    (h : ∀ r ∈ chess, r.rated ≠ none ∧ r.victory_status ≠ none ∧
      r.time_increment ≠ none ∧ r.opening_shortname ≠ none) :
    filtered chess (acceptAllCriteria chess) = chess := by
  have hbase : filtered chess (acceptAllCriteria chess) =
      chess.filter (fun r => attrMask (acceptAllCriteria chess) r) := rfl
  rw [hbase, List.filter_eq_self]
  intro r hr
  obtain ⟨h1, h2, h3, h4⟩ := h r hr
  obtain ⟨b, hb⟩ := Option.ne_none_iff_exists'.mp h1
  obtain ⟨s1, hs1⟩ := Option.ne_none_iff_exists'.mp h2
  obtain ⟨s2, hs2⟩ := Option.ne_none_iff_exists'.mp h3
  obtain ⟨s3, hs3⟩ := Option.ne_none_iff_exists'.mp h4
  refine attrMask_iff.mpr ⟨⟨b, hb, by cases b <;> simp [acceptAllCriteria]⟩,
    ⟨s1, hs1, ?_⟩, ⟨s2, hs2, ?_⟩, ⟨s3, hs3, ?_⟩⟩
  · exact List.mem_dedup.mpr (List.mem_filterMap.mpr ⟨r, hr, hs1⟩)
  · exact List.mem_dedup.mpr (List.mem_filterMap.mpr ⟨r, hr, hs2⟩)
  · exact List.mem_dedup.mpr (List.mem_filterMap.mpr ⟨r, hr, hs3⟩)

/-- C4, the claim as frozen, is false on a record set containing a record
with a null cell in a filterable column: with the default (accept every
observed value) sidebar state and no player selected, the null-rated record
is still dropped, so the filter is not the identity there. -/
theorem claim4_counterexample :
    filtered [rnull] (acceptAllCriteria [rnull]) = [] ∧
      ([] : List GameRecord) ≠ [rnull] := by decide

/-- Witness for C4's theorem on the three-record example, whose cells are all
present. -/
theorem claim4_witness : filtered ex3 (acceptAllCriteria ex3) = ex3 :=
  claim4_accept_all_identity ex3 (by decide)

/-- C5 (confirmed): for every record list and criteria, the filter output is
a sublist of the input — its records are records of the input, kept in the
input's relative order. -/
theorem claim5_filter_sublist (chess : List GameRecord) (c : FilterCriteria) :
    (filtered chess c).Sublist chess ∧ ∀ r ∈ filtered chess c, r ∈ chess := by
  have hsub : (filtered chess c).Sublist chess := by
    unfold filtered
    split
    · exact List.filter_sublist _
    · exact (List.filter_sublist _).trans (List.filter_sublist _)
  exact ⟨hsub, fun r hr => hsub.subset hr⟩

/-- Witness for C5's theorem at concrete inputs. -/
theorem claim5_witness : (filtered ex3 cFull).Sublist ex3 ∧ g1 ∈ ex3 :=
  ⟨(claim5_filter_sublist ex3 cFull).1,
   (claim5_filter_sublist ex3 cFull).2 g1 (by decide)⟩

/-- C10 (confirmed): the four column constraints are applied to every record
unconditionally, and a null cell is never a member of an accepted list (the
lists are built from `dropna().unique()` and are null-free by type), so
every record surviving the filter has present values in all four filterable
columns. -/
theorem claim10_no_null_survives_filter (chess : List GameRecord)
    (c : FilterCriteria) (r : GameRecord) (hr : r ∈ filtered chess c) :
    r.rated ≠ none ∧ r.victory_status ≠ none ∧ r.time_increment ≠ none ∧
      r.opening_shortname ≠ none := by
  obtain ⟨-, hmask, -⟩ := mem_filtered_iff.mp hr
  obtain ⟨⟨b, hb, -⟩, ⟨s1, h1, -⟩, ⟨s2, h2, -⟩, ⟨s3, h3, -⟩⟩ := attrMask_iff.mp hmask
  exact ⟨by simp [hb], by simp [h1], by simp [h2], by simp [h3]⟩

/-- Witness for C10's theorem at a concrete filtered record. -/
theorem claim10_witness :
    g1.rated ≠ none ∧ g1.victory_status ≠ none ∧ g1.time_increment ≠ none ∧
      g1.opening_shortname ≠ none :=
  claim10_no_null_survives_filter [g1] cFull g1 (by decide)

/-! ### Claim theorems: scalar metrics -/

/-- C2 (amended): `avg_turns` is the arithmetic mean of `turns` for a
nonempty view; on the empty view pandas `mean()` yields NaN (modelled
`none`) — an explicit undefined value, not a raised error, and not 0. -/
theorem claim2_avg_turns_mean_or_nan :
    avg_turns [] = none ∧
      ∀ v : List GameRecord, v ≠ [] →
        ∃ q : ℚ, avg_turns v = some q ∧
          q * (v.length : ℚ) = ((v.map GameRecord.turns).sum : ℚ) := by
  refine ⟨rfl, fun v hv => ?_⟩
  have hlen : v.length ≠ 0 := by simpa using hv
  refine ⟨((v.map GameRecord.turns).sum : ℚ) / (v.length : ℚ), by simp [avg_turns, hlen], ?_⟩
  have hq : (v.length : ℚ) ≠ 0 := Nat.cast_ne_zero.mpr hlen
  exact div_mul_cancel₀ _ hq

/-- C2, the claim as frozen, is false at the empty view: the code produces
NaN (`none`) there, not 0. -/
theorem claim2_counterexample :
    avg_turns [] = none ∧ avg_turns [] ≠ some 0 :=
  ⟨rfl, by simp [avg_turns]⟩

/-- Witness for C2's theorem at the three-record example. -/
theorem claim2_witness :
    ∃ q : ℚ, avg_turns ex3 = some q ∧
      q * ((ex3 : List GameRecord).length : ℚ) = ((ex3.map GameRecord.turns).sum : ℚ) :=
  claim2_avg_turns_mean_or_nan.2 ex3 (by decide)

/-- C7 (confirmed): `rated_pct` is `100 * (number of rated games) / (number
of games)` — the guard makes the empty case 0, which also agrees with the
formula since `x / 0 = 0` in `ℚ`. -/
theorem claim7_rated_percentage (v : List GameRecord) :
    rated_pct v = 100 * (ratedSum v : ℚ) / (v.length : ℚ) ∧
      rated_pct ([] : List GameRecord) = 0 := by
  refine ⟨?_, rfl⟩
  unfold rated_pct
  by_cases hv : 0 < v.length
  · rw [if_pos hv]; ring
  · rw [if_neg hv]
    have h0 : v.length = 0 := by omega
    simp [h0]

/-! ### Claim theorems: loader and export -/

lemma parseRows_length :
    ∀ (rows : List (List Cell)) (recs : List GameRecord),
      parseRows rows = some recs → recs.length = rows.length := by
  intro rows
  induction rows with
  | nil =>
    intro recs h
    simp only [parseRows, Option.some.injEq] at h
    simp [← h]
  | cons row rest ih =>
    intro recs h
    simp only [parseRows] at h
    cases hp : parseRow row with
    | none => rw [hp] at h; cases h
    | some r =>
      cases hrest : parseRows rest with
      | none => rw [hp, hrest] at h; cases h
      | some rs =>
        rw [hp, hrest] at h
        simp only [Option.some.injEq] at h
        subst h
        simp [ih rs hrest]

/-- C9 (confirmed): whenever `load_data` succeeds it returns one record per
raw data row — rows are never merged or dropped, so duplicate `game_id`
values are all kept and cause no failure (see the witness for a concrete
duplicate-key table). -/
theorem claim9_load_keeps_duplicate_rows (t : CSVTable) (recs : List GameRecord)
    (h : load_data t = some recs) : recs.length = t.rows.length := by
  unfold load_data at h
  by_cases hc : t.header.filter (fun c => !droppedCols.contains c) = domainHeader
  · rw [if_pos hc] at h
    rw [parseRows_length _ _ h]
    exact List.length_map _ _
  · rw [if_neg hc] at h
    cases h

/-- Witness for C9's theorem: a table whose two rows share `game_id = 7`
loads successfully, keeps both rows, and both loaded records carry id 7. -/
theorem claim9_witness :
    ∃ recs, load_data dupTable = some recs ∧
      recs.length = dupTable.rows.length ∧
      recs.map GameRecord.game_id = [7, 7] := by
  have h : load_data dupTable =
      some [⟨7, some true, 12, some "mate", some "White", some "10+0",
              some "Italian", some "a", some "b"⟩,
            ⟨7, some false, 33, some "resign", some "Black", some "5+5",
              some "Sicilian", some "c", some "d"⟩] := by decide
  exact ⟨_, h, claim9_load_keeps_duplicate_rows dupTable _ h, by decide⟩

lemma parse_cellOfOptBool (o : Option Bool) :
    parseOptBool (cellOfOptBool o) = some o := by cases o <;> rfl

lemma parse_cellOfOptStr (o : Option String) :
    parseOptStr (cellOfOptStr o) = some o := by cases o <;> rfl

lemma keepCols_recordToRow (r : GameRecord) :
    keepCols domainHeader (recordToRow r) = recordToRow r := rfl

lemma parseRow_recordToRow (r : GameRecord) :
    parseRow (recordToRow r) = some r := by
  rcases r with ⟨gid, rOpt, t, vs, w, ti, os, wi, bi⟩
  simp [recordToRow, parseRow, parse_cellOfOptBool, parse_cellOfOptStr]

lemma parseRows_map_recordToRow :
    ∀ v : List GameRecord, parseRows (v.map recordToRow) = some v
  | [] => rfl
  | r :: rest => by
    simp [parseRows, parseRow_recordToRow, parseRows_map_recordToRow rest]

/-- C8 (confirmed): loading the serialized view reproduces the view exactly —
every record, every column value, `game_id` included — and the serialized
table is the domain header plus one row per record.  `to_csv` is a pure
function of the view, hence deterministic for a fixed view order. -/
theorem claim8_csv_roundtrip (v : List GameRecord) :
    load_data (to_csv v) = some v ∧
      (to_csv v).header = domainHeader ∧
      (to_csv v).rows.length = v.length ∧
      "game_id" ∈ (to_csv v).header := by
  refine ⟨?_, rfl, by simp [to_csv], by simp [to_csv, domainHeader]⟩
  have h1 : load_data (to_csv v) =
      parseRows ((v.map recordToRow).map (keepCols domainHeader)) := by
    unfold load_data to_csv
    exact if_pos rfl
  have h2 : ∀ r ∈ v, (keepCols domainHeader ∘ recordToRow) r = recordToRow r :=
    fun r _ => keepCols_recordToRow r
  rw [h1, List.map_map, List.map_congr_left h2, parseRows_map_recordToRow]

/-! ### Claim theorems: ranked aggregations -/

lemma sortByKeyDesc_perm {α : Type} (key : α → Nat) (l : List α) :
    List.Perm (sortByKeyDesc key l) l :=
  List.perm_insertionSort _ l

lemma sortByKeyDesc_pairwise {α : Type} (key : α → Nat) (l : List α) :
    (sortByKeyDesc key l).Pairwise (fun a b => key b ≤ key a) :=
  List.sorted_insertionSort (keyDescRel key) l

/-- Top-`n` property of a descending-sorted list: an element either makes the
cut, or the cut is full (`n` entries) and every taken entry has at least its
key. -/
lemma take_top {α : Type} (key : α → Nat) {s : List α} (n : Nat) {x : α}
    (hsort : s.Pairwise (fun a b => key b ≤ key a)) (hx : x ∈ s) :
    x ∈ s.take n ∨
      ((s.take n).length = n ∧ ∀ p ∈ s.take n, key x ≤ key p) := by
  have hsplit : s.take n ++ s.drop n = s := List.take_append_drop n s
  have hpw : (s.take n ++ s.drop n).Pairwise (fun a b => key b ≤ key a) := by
    rw [hsplit]; exact hsort
  rw [← hsplit] at hx
  rcases List.mem_append.mp hx with h | h
  · exact Or.inl h
  · refine Or.inr ⟨?_, fun p hp => (List.pairwise_append.mp hpw).2.2 p hp x h⟩
    have hlt : n < s.length := by
      by_contra hle
      push_neg at hle
      rw [List.drop_eq_nil_of_le hle] at h
      exact absurd h (List.not_mem_nil x)
    simp [List.length_take, Nat.min_eq_left (le_of_lt hlt)]

lemma mem_value_counts {l : List String} {p : String × Nat} :
    p ∈ value_counts l ↔ p.1 ∈ l ∧ p.2 = l.count p.1 := by
  unfold value_counts
  rw [(sortByKeyDesc_perm Prod.snd _).mem_iff]
  constructor
  · intro h
    obtain ⟨s, hs, hp⟩ := List.mem_map.mp h
    obtain rfl := hp.symm
    exact ⟨List.mem_dedup.mp hs, rfl⟩
  · rintro ⟨h1, h2⟩
    refine List.mem_map.mpr ⟨p.1, List.mem_dedup.mpr h1, ?_⟩
    rw [← h2]

lemma value_counts_pairwise (l : List String) :
    (value_counts l).Pairwise (fun a b => b.2 ≤ a.2) :=
  sortByKeyDesc_pairwise Prod.snd _

/-- C6 (confirmed): `openings_top` restricts the view to White wins, counts
them per opening, and returns at most `n` openings in descending order of
that raw win count; the count reported for each returned opening is exact,
every returned opening has at least one White win, any opening left out of a
full result has no more wins than any returned one, and on the spec's
three-record example the result is `[("Italian", 2)]`. -/
theorem claim6_top_openings_by_white_win_count (v : List GameRecord) (n : Nat) :
    (openings_top v n).Pairwise (fun a b => b.2 ≤ a.2) ∧
    (∀ p ∈ openings_top v n, p.2 = whiteWinCount v p.1 ∧ 1 ≤ p.2) ∧
    (openings_top v n).length ≤ n ∧
    (∀ o, 1 ≤ whiteWinCount v o →
      (∃ c, (o, c) ∈ openings_top v n) ∨
      ((openings_top v n).length = n ∧
        ∀ p ∈ openings_top v n, whiteWinCount v o ≤ p.2)) ∧
    openings_top ex3 10 = [("Italian", 2)] := by
  refine ⟨?_, ?_, List.length_take_le n _, ?_, by decide⟩
  · exact (value_counts_pairwise (white_openings v)).sublist (List.take_sublist n _)
  · intro p hp
    have hvc : p ∈ value_counts (white_openings v) := List.take_subset n _ hp
    obtain ⟨h1, h2⟩ := mem_value_counts.mp hvc
    refine ⟨h2, ?_⟩
    rw [h2]
    exact List.count_pos_iff.mpr h1
  · intro o ho
    have hmem : (o, (white_openings v).count o) ∈ value_counts (white_openings v) :=
      mem_value_counts.mpr ⟨List.count_pos_iff.mp ho, rfl⟩
    rcases take_top Prod.snd n (value_counts_pairwise (white_openings v)) hmem
      with h | ⟨hlen, hall⟩
    · exact Or.inl ⟨(white_openings v).count o, h⟩
    · exact Or.inr ⟨hlen, hall⟩

/-- Witness for C6's theorem at the three-record example. -/
theorem claim6_witness :
    (∃ c, ("Italian", c) ∈ openings_top ex3 10) ∨
      ((openings_top ex3 10).length = 10 ∧
        ∀ p ∈ openings_top ex3 10, whiteWinCount ex3 "Italian" ≤ p.2) :=
  (claim6_top_openings_by_white_win_count ex3 10).2.2.2.1 "Italian" (by decide)

lemma player_stats_eq (v : List GameRecord) (n : Nat) :
    player_stats v n =
      (sortByKeyDesc (fun e : String × Nat × ℚ => e.2.1)
        (((playersIndex v).filter (fun p => decide (total_wins v p ≠ 0))).map
          (fun p => (p, total_games v p,
            ((total_wins v p : ℚ) / (total_games v p : ℚ)) * 100)))).take n := rfl

lemma mem_playersIndex_of_wins {v : List GameRecord} {p : String}
    (h : total_wins v p ≠ 0) : p ∈ playersIndex v := by
  unfold total_wins at h
  unfold playersIndex
  rw [List.mem_dedup, List.mem_append]
  have hor : white_wins v p ≠ 0 ∨ black_wins v p ≠ 0 := by omega
  rcases hor with hw | hb
  · left
    have hmem := List.count_pos_iff.mp (Nat.pos_of_ne_zero hw)
    exact ((List.filter_sublist v).filterMap GameRecord.white_id).subset hmem
  · right
    have hmem := List.count_pos_iff.mp (Nat.pos_of_ne_zero hb)
    exact ((List.filter_sublist v).filterMap GameRecord.black_id).subset hmem

/-- C1 (amended): `player_stats` reports, for each listed player, the exact
game count (appearances as White plus as Black) and the exact win rate
`100 * wins / games`; it lists only players with at least one win — the
zero-win players are the ones whose NaN win rate `dropna()` removes, whereas
every appearing player has `games ≥ 1`, so "exclude games == 0" excludes
nobody — ranks the list by game count descending (not by win rate), and
returns at most `n` entries; any player with a win who is left out of a full
result has no more games than any listed player. -/
theorem claim1_players_ranked_by_games (v : List GameRecord) (n : Nat) :
    (player_stats v n).Pairwise (fun a b => b.2.1 ≤ a.2.1) ∧
    (∀ e ∈ player_stats v n,
      e.2.1 = total_games v e.1 ∧
      e.2.2 = 100 * (total_wins v e.1 : ℚ) / (total_games v e.1 : ℚ) ∧
      1 ≤ total_wins v e.1) ∧
    (player_stats v n).length ≤ n ∧
    (∀ p, 1 ≤ total_wins v p →
      (∃ g q, (p, g, q) ∈ player_stats v n) ∨
      ((player_stats v n).length = n ∧
        ∀ e ∈ player_stats v n, total_games v p ≤ e.2.1)) := by
  rw [player_stats_eq]
  refine ⟨?_, ?_, List.length_take_le n _, ?_⟩
  · exact (sortByKeyDesc_pairwise (fun e : String × Nat × ℚ => e.2.1) _).sublist (List.take_sublist n _)
  · intro e he
    have hrows : e ∈ ((playersIndex v).filter (fun p => decide (total_wins v p ≠ 0))).map
        (fun p => (p, total_games v p,
          ((total_wins v p : ℚ) / (total_games v p : ℚ)) * 100)) :=
      (sortByKeyDesc_perm (fun e : String × Nat × ℚ => e.2.1) _).mem_iff.mp (List.take_subset n _ he)
    obtain ⟨p, hp, hfe⟩ := List.mem_map.mp hrows
    obtain rfl := hfe.symm
    have hw : total_wins v p ≠ 0 := by
      have hdec := (List.mem_filter.mp hp).2
      simpa using hdec
    exact ⟨rfl, by ring, Nat.one_le_iff_ne_zero.mpr hw⟩
  · intro p hp1
    have hw : total_wins v p ≠ 0 := Nat.one_le_iff_ne_zero.mp hp1
    have hkept : p ∈ (playersIndex v).filter (fun p => decide (total_wins v p ≠ 0)) :=
      List.mem_filter.mpr ⟨mem_playersIndex_of_wins hw, by simpa using hw⟩
    have hmem : (p, total_games v p,
        ((total_wins v p : ℚ) / (total_games v p : ℚ)) * 100) ∈
          sortByKeyDesc (fun e : String × Nat × ℚ => e.2.1)
            (((playersIndex v).filter (fun p => decide (total_wins v p ≠ 0))).map
              (fun p => (p, total_games v p,
                ((total_wins v p : ℚ) / (total_games v p : ℚ)) * 100))) :=
      (sortByKeyDesc_perm (fun e : String × Nat × ℚ => e.2.1) _).mem_iff.mpr
        (List.mem_map.mpr ⟨p, hkept, rfl⟩)
    rcases take_top (fun e : String × Nat × ℚ => e.2.1) n
        (sortByKeyDesc_pairwise (fun e : String × Nat × ℚ => e.2.1) _) hmem with h | ⟨hlen, hall⟩
    · exact Or.inl ⟨total_games v p, _, h⟩
    · exact Or.inr ⟨hlen, hall⟩

/-- C1, the claim as frozen, is false: in the single game `g1`, player "b"
appears (so `games = 1 ≠ 0`) and per the claim would be ranked and returned
within the top 10, but the code's `dropna()` removes "b" (no wins, NaN win
rate) and returns a single entry. -/
theorem claim1_counterexample :
    total_games [g1] "b" = 1 ∧ (∀ e ∈ player_stats [g1] 10, e.1 ≠ "b") ∧
      (player_stats [g1] 10).length = 1 := by decide

/-- Witness for C1's theorem: player "a" of the three-record example (two
wins) is listed or crowded out of a full top-10. -/
theorem claim1_witness :
    (∃ g q, ("a", g, q) ∈ player_stats ex3 10) ∨
      ((player_stats ex3 10).length = 10 ∧
        ∀ e ∈ player_stats ex3 10, total_games ex3 "a" ≤ e.2.1) :=
  (claim1_players_ranked_by_games ex3 10).2.2.2 "a" (by decide)

end ChessDashboard
